import Mathlib

/-!
Verification of the AI-Travel-Assistant repository core:
the retry client `query_llama` (travel_assistant.py), the two pipeline
variants (travel_assistant.py / travel_crew.py) with their budget/packing
partitioning, and the weather tool (travel_tools.py).

Strings are modelled as `List Char`; Python string operations
(`in`, `split`, `strip`) are embedded below.
-/

/-- Python strings, modelled as lists of characters. -/
abbrev Str := List Char

/-- ASCII whitespace as recognised by Python `str.strip()` (the inputs in
this development use only these characters). -/
def pyIsSpace (c : Char) : Bool :=
  c = ' ' || c = '\t' || c = '\n' || c = '\r' || c = '\x0b' || c = '\x0c'

/-- Python `s.lstrip()`. -/
def pyLStrip (s : Str) : Str := s.dropWhile pyIsSpace

/-- Python `s.rstrip()`. -/
def pyRStrip (s : Str) : Str := (s.reverse.dropWhile pyIsSpace).reverse

/-- Python `s.strip()`: removes leading and trailing whitespace. -/
def pyStrip (s : Str) : Str := pyRStrip (pyLStrip s)

/-- Whether `p` is a (character-wise) prefix of `s`. -/
def isPre : Str → Str → Bool
  | [], _ => true
  | _ :: _, [] => false
  | a :: as, b :: bs => if a = b then isPre as bs else false

/-- Split `hay` at the first occurrence of `sep`: returns the parts before
and after that occurrence, or `none` when `sep` does not occur. -/
def splitOnce (sep : Str) : Str → Option (Str × Str)
  | [] => if isPre sep [] then some ([], []) else none
  | c :: rest =>
    if isPre sep (c :: rest) then some ([], List.drop sep.length (c :: rest))
    else (splitOnce sep rest).map (fun p => (c :: p.1, p.2))

/-- Python `needle in hay` (substring containment). -/
def strIn (needle hay : Str) : Bool := (splitOnce needle hay).isSome

/-- Fuelled worker for Python `s.split(sep)` (split at every occurrence). -/
def splitAllGo (sep : Str) : Nat → Str → List Str
  | 0, s => [s]
  | fuel + 1, s =>
    match splitOnce sep s with
    | none => [s]
    | some (pre, post) => pre :: splitAllGo sep fuel post

/-- Python `s.split(sep)` for a non-empty separator: the fuel
`s.length + 1` always suffices because every found occurrence strictly
shortens the remainder. -/
def pySplit (sep s : Str) : List Str := splitAllGo sep (s.length + 1) s

/-- Python `s.split(sep, 1)`: split at most once, at the first occurrence. -/
def pySplit1 (sep s : Str) : List Str :=
  match splitOnce sep s with
  | none => [s]
  | some (pre, post) => [pre, post]

theorem isPre_append (p s : Str) : isPre p (p ++ s) = true := by
  induction p with
  | nil => rfl
  | cons a as ih => simp [isPre, ih]

theorem isPre_nil_eq (p : Str) (h : isPre p [] = true) : p = [] := by
  cases p with
  | nil => rfl
  | cons a as => simp [isPre] at h

theorem isPre_append_drop (p : Str) :
    ∀ s : Str, isPre p s = true → p ++ List.drop p.length s = s := by
  induction p with
  | nil => intro s _; simp
  | cons a as ih =>
    intro s h
    cases s with
    | nil => simp [isPre] at h
    | cons b bs =>
      by_cases hab : a = b
      · subst hab
        simp only [isPre, if_pos rfl] at h
        simpa [List.length_cons, List.drop_succ_cons] using congrArg (a :: ·) (ih bs h)
      · simp [isPre, hab] at h

theorem splitOnce_of_first (sep : Str) :
    ∀ (pre : Str) (s post : Str), s = pre ++ sep ++ post →
      (∀ i, i < pre.length → isPre sep (List.drop i s) = false) →
      splitOnce sep s = some (pre, post) := by
  intro pre
  induction pre with
  | nil =>
    intro s post hdec _
    simp only [List.nil_append] at hdec
    subst hdec
    cases hsp : sep ++ post with
    | nil =>
      rcases List.append_eq_nil.mp hsp with ⟨h1, h2⟩
      subst h1; subst h2
      rfl
    | cons c rest =>
      have hp : isPre sep (sep ++ post) = true := isPre_append sep post
      rw [← hsp]
      rw [hsp] at hp ⊢
      simp only [splitOnce, hp, if_pos]
      rw [← hsp, List.drop_left]
  | cons a pre' ih =>
    intro s post hdec hfirst
    have hs : s = a :: (pre' ++ sep ++ post) := by simp [hdec]
    subst hs
    have h0 : isPre sep (a :: (pre' ++ sep ++ post)) = false := by
      have := hfirst 0 (by simp)
      simpa using this
    have hrest : splitOnce sep (pre' ++ sep ++ post) = some (pre', post) := by
      apply ih _ post rfl
      intro i hi
      have := hfirst (i + 1) (by simp; omega)
      simpa [List.drop_succ_cons] using this
    simp only [List.append_assoc] at h0 hrest ⊢
    simp [splitOnce, h0, hrest]

theorem splitOnce_sound (sep : Str) :
    ∀ (s pre post : Str), splitOnce sep s = some (pre, post) →
      s = pre ++ sep ++ post := by
  intro s
  induction s with
  | nil =>
    intro pre post h
    by_cases hp : isPre sep [] = true
    · have hsep := isPre_nil_eq sep hp
      subst hsep
      have h' := h
      simp [splitOnce, isPre] at h'
      obtain ⟨rfl, rfl⟩ := h'
      rfl
    · simp [splitOnce, hp] at h
  | cons c rest ih =>
    intro pre post h
    by_cases hp : isPre sep (c :: rest) = true
    · simp only [splitOnce, hp, if_pos, Option.some.injEq, Prod.mk.injEq] at h
      rcases h with ⟨h1, h2⟩
      subst h2
      rw [← h1, List.nil_append]
      exact (isPre_append_drop sep _ hp).symm
    · simp only [splitOnce, hp, if_neg, Bool.not_eq_true] at h
      cases hrest : splitOnce sep rest with
      | none => rw [hrest] at h; simp at h
      | some p =>
        rw [hrest] at h
        simp only [Option.map_some', Option.some.injEq] at h
        rcases p with ⟨p1, p2⟩
        simp only [Prod.mk.injEq] at h
        rcases h with ⟨h1, h2⟩
        subst h1
        subst h2
        have := ih p1 p2 hrest
        simp [this]

theorem splitOnce_isSome_of_append (sep : Str) :
    ∀ (a b : Str), (splitOnce sep (a ++ sep ++ b)).isSome = true := by
  intro a
  induction a with
  | nil =>
    intro b
    simp only [List.nil_append]
    cases hsp : sep ++ b with
    | nil =>
      rcases List.append_eq_nil.mp hsp with ⟨h1, h2⟩
      subst h1
      subst h2
      rfl
    | cons c rest =>
      have hp : isPre sep (sep ++ b) = true := isPre_append sep b
      rw [hsp] at hp
      simp [splitOnce, hp]
  | cons c a' ih =>
    intro b
    simp only [List.cons_append, List.append_assoc]
    by_cases hp : isPre sep (c :: (a' ++ (sep ++ b))) = true
    · simp [splitOnce, hp]
    · have hih := ih b
      simp only [List.append_assoc] at hih
      cases ho : splitOnce sep (a' ++ (sep ++ b)) with
      | none => rw [ho] at hih; simp at hih
      | some p => simp [splitOnce, hp, ho]

/-- The packing-list marker, `packing_list_marker` in travel_crew.py
(the same literal appears inline in travel_assistant.py). -/
def packing_list_marker : Str := ("# Packing List").data

/-- The budget/packing split of travel_assistant.py (lines 226-232):
guarded by `"Packing List" in budget_result`, it splits on the literal
`"# Packing List"` at every occurrence without trimming; when the guard
fails it uses the placeholder `"Packing list not generated"`. -/
def assistantSplit (budget_result : Str) : Str × Str :=
  if strIn (("Packing List").data) budget_result then
    let parts := pySplit (("# Packing List").data) budget_result
    (parts.headD [],
      if 1 < parts.length then ("# Packing List").data ++ parts.getD 1 [] else [])
  else
    (budget_result, ("Packing list not generated").data)

/-- The budget/packing extraction of travel_crew.py (lines 355-363):
guarded by `packing_list_marker in budget_output_raw`, it splits once at
the first occurrence and strips both parts; when the guard fails the
budget entry keeps the whole raw string and the packing entry is the
placeholder `"Packing list section not found in budget output."`. -/
def crewSplit (budget_output_raw : Str) : Str × Str :=
  if strIn packing_list_marker budget_output_raw then
    let parts := pySplit1 packing_list_marker budget_output_raw
    (pyStrip (parts.headD []), packing_list_marker ++ pyStrip (parts.getD 1 []))
  else
    (budget_output_raw, ("Packing list section not found in budget output.").data)

theorem splitAllGo_ne_nil (sep : Str) (fuel : Nat) (s : Str) :
    splitAllGo sep fuel s ≠ [] := by
  cases fuel with
  | zero => simp [splitAllGo]
  | succ n =>
    simp only [splitAllGo]
    cases splitOnce sep s with
    | none => simp
    | some p => cases p; simp

theorem splitAllGo_succ_headD (sep : Str) (n : Nat) (s d : Str) :
    (splitAllGo sep (n + 1) s).headD d =
      (match splitOnce sep s with
       | none => s
       | some (pre, _) => pre) := by
  simp only [splitAllGo]
  cases splitOnce sep s with
  | none => rfl
  | some p => cases p; rfl

theorem pySplit_of_none (sep s : Str) (h : splitOnce sep s = none) :
    pySplit sep s = [s] := by
  simp [pySplit, splitAllGo, h]

theorem pySplit_of_some (sep s pre post : Str)
    (h : splitOnce sep s = some (pre, post)) :
    pySplit sep s = pre :: splitAllGo sep s.length post := by
  simp [pySplit, splitAllGo, h]

theorem strIn_of_append (needle a b : Str) :
    strIn needle (a ++ needle ++ b) = true := by
  simpa [strIn] using splitOnce_isSome_of_append needle a b

theorem splitOnce_eq_none_of_strIn_false (needle s : Str)
    (h : strIn needle s = false) : splitOnce needle s = none := by
  cases ho : splitOnce needle s with
  | none => rfl
  | some p => rw [strIn, ho] at h; simp at h

/-- Claim C5 (amended): when the marker occurs (given by a first-occurrence
decomposition `s = pre ++ marker ++ post`), the travel_crew variant
returns the part before the marker stripped of leading and trailing
whitespace as the budget section, and the marker concatenated with the
stripped part after it as the packing section; the travel_assistant
variant performs no trimming: its budget section is exactly the untrimmed
part before the first occurrence, and its packing section is the marker
concatenated with only the text up to the next occurrence of the marker
(the whole remainder when the marker occurs once). -/
theorem c5_partition_amended (s pre post : Str)
    (hdec : s = pre ++ packing_list_marker ++ post)
    (hfirst : ∀ i, i < pre.length →
      isPre packing_list_marker (List.drop i s) = false) :
    crewSplit s = (pyStrip pre, packing_list_marker ++ pyStrip post) ∧
    (assistantSplit s).1 = pre ∧
    (∀ pre2 post2, splitOnce packing_list_marker post = some (pre2, post2) →
      (assistantSplit s).2 = packing_list_marker ++ pre2) ∧
    (splitOnce packing_list_marker post = none →
      (assistantSplit s).2 = packing_list_marker ++ post) := by
  have hsplit : splitOnce packing_list_marker s = some (pre, post) :=
    splitOnce_of_first packing_list_marker pre s post hdec hfirst
  have hguardC : strIn packing_list_marker s = true := by
    rw [strIn, hsplit]
    rfl
  have hmark : packing_list_marker = ('#' :: (' ' :: ("Packing List").data)) := by
    decide
  have hdec2 : s = (pre ++ ['#', ' ']) ++ ("Packing List").data ++ post := by
    rw [hdec, hmark]
    simp
  have hguardA : strIn (("Packing List").data) s = true := by
    rw [hdec2]
    exact strIn_of_append _ _ _
  have hsplit' : splitOnce (("# Packing List").data) s = some (pre, post) := hsplit
  have hparts : pySplit (("# Packing List").data) s
      = pre :: splitAllGo (("# Packing List").data) s.length post :=
    pySplit_of_some _ s pre post hsplit'
  have hpos : 0 < s.length := by
    rw [hdec]
    simp only [List.length_append]
    have h14 : 0 < (packing_list_marker).length := by decide
    omega
  obtain ⟨m, hm⟩ : ∃ m, s.length = m + 1 := ⟨s.length - 1, by omega⟩
  refine ⟨?_, ?_, ?_, ?_⟩
  · simp [crewSplit, hguardC, pySplit1, hsplit]
  · simp [assistantSplit, hguardA, hparts]
  · intro pre2 post2 hsome
    have hsome' : splitOnce (("# Packing List").data) post = some (pre2, post2) :=
      hsome
    have hrest2 : splitAllGo (("# Packing List").data) s.length post
        = pre2 :: splitAllGo (("# Packing List").data) m post2 := by
      rw [hm]
      simp only [splitAllGo, hsome']
    have hcond : 1 < (pre :: pre2 ::
        splitAllGo (("# Packing List").data) m post2).length := by
      simp [List.length_cons]
    simp [assistantSplit, hguardA, hparts, hrest2, hcond, packing_list_marker]
  · intro hnone
    have hnone' : splitOnce (("# Packing List").data) post = none := hnone
    have hrest2 : splitAllGo (("# Packing List").data) s.length post = [post] := by
      rw [hm]
      simp only [splitAllGo, hnone']
    simp [assistantSplit, hguardA, hparts, hrest2, packing_list_marker]

/-- Claim C5 (counterexample): on a combined string with the marker, the
travel_assistant split keeps the trailing newline of the part before the
marker, so the budget section is not trimmed of trailing whitespace as
the claim states. -/
theorem c5_counterexample :
    ("# Budget Estimate\nTotal: 100\n# Packing List\n- Socks").data
      = ("# Budget Estimate\nTotal: 100\n").data ++ packing_list_marker
          ++ ("\n- Socks").data ∧
    (∀ i, i < (("# Budget Estimate\nTotal: 100\n").data).length →
      isPre packing_list_marker
        (List.drop i (("# Budget Estimate\nTotal: 100\n# Packing List\n- Socks").data))
        = false) ∧
    (assistantSplit (("# Budget Estimate\nTotal: 100\n# Packing List\n- Socks").data)).1
      = ("# Budget Estimate\nTotal: 100\n").data ∧
    ("# Budget Estimate\nTotal: 100\n").data
      ≠ pyRStrip (("# Budget Estimate\nTotal: 100\n").data) := by
  decide

/-- Claim C5 (witness): the amended statement applied to a concrete
combined string. -/
theorem c5_partition_amended_witness :
    crewSplit (("# Budget Estimate\nTotal: 9\n# Packing List\n- Socks").data)
      = (pyStrip (("# Budget Estimate\nTotal: 9\n").data),
         packing_list_marker ++ pyStrip (("\n- Socks").data)) :=
  (c5_partition_amended
    (("# Budget Estimate\nTotal: 9\n# Packing List\n- Socks").data)
    (("# Budget Estimate\nTotal: 9\n").data) (("\n- Socks").data)
    (by decide) (by decide)).1

/-- Claim C6 (amended): when the marker does not occur, the travel_crew
variant yields the whole input as budget and its fixed placeholder as
packing; the travel_assistant variant yields the whole input as budget,
with placeholder packing only when the containment test string
`"Packing List"` is also absent; when `"Packing List"` occurs without the
full marker, its packing section is the empty string, not the
placeholder. -/
theorem c6_partition_fallback_amended (s : Str)
    (h : strIn packing_list_marker s = false) :
    crewSplit s = (s, ("Packing list section not found in budget output.").data) ∧
    (strIn (("Packing List").data) s = false →
      assistantSplit s = (s, ("Packing list not generated").data)) ∧
    (strIn (("Packing List").data) s = true →
      assistantSplit s = (s, ([] : Str))) := by
  have hnone : splitOnce packing_list_marker s = none :=
    splitOnce_eq_none_of_strIn_false packing_list_marker s h
  have hnone' : splitOnce (("# Packing List").data) s = none := hnone
  have hparts : pySplit (("# Packing List").data) s = [s] :=
    pySplit_of_none _ s hnone'
  refine ⟨?_, ?_, ?_⟩
  · simp [crewSplit, h]
  · intro h2
    simp [assistantSplit, h2]
  · intro h2
    simp [assistantSplit, h2, hparts]

/-- Claim C6 (counterexample): `"Packing List\n- Socks"` does not contain
the marker `"# Packing List"`, yet the travel_assistant split returns the
empty string as the packing section, which is neither variant's
placeholder sentinel. -/
theorem c6_counterexample :
    strIn packing_list_marker (("Packing List\n- Socks").data) = false ∧
    assistantSplit (("Packing List\n- Socks").data)
      = ((("Packing List\n- Socks").data), ([] : Str)) ∧
    ([] : Str) ≠ ("Packing list not generated").data ∧
    ([] : Str) ≠ ("Packing list section not found in budget output.").data := by
  decide

/-- Claim C6 (witness): the amended statement applied to concrete
marker-free inputs, one without and one with the containment string. -/
theorem c6_partition_fallback_amended_witness :
    (strIn packing_list_marker (("Budget only").data) = false ∧
     crewSplit (("Budget only").data)
       = ((("Budget only").data),
          ("Packing list section not found in budget output.").data) ∧
     assistantSplit (("Budget only").data)
       = ((("Budget only").data), ("Packing list not generated").data)) ∧
    assistantSplit (("has Packing List only").data)
      = ((("has Packing List only").data), ([] : Str)) :=
  ⟨⟨by decide,
    (c6_partition_fallback_amended (("Budget only").data) (by decide)).1,
    (c6_partition_fallback_amended (("Budget only").data) (by decide)).2.1
      (by decide)⟩,
   (c6_partition_fallback_amended (("has Packing List only").data)
      (by decide)).2.2 (by decide)⟩

/-- Claim C10: in the travel_assistant variant, an input containing
`"Packing List"` but not `"# Packing List"` passes the containment guard
but the split on `"# Packing List"` produces a single part, so the budget
key gets the entire input and the packing key gets the empty string,
which is not the placeholder sentinel. -/
theorem c10_assistant_marker_mismatch (s : Str)
    (h1 : strIn (("Packing List").data) s = true)
    (h2 : strIn packing_list_marker s = false) :
    pySplit packing_list_marker s = [s] ∧
    assistantSplit s = (s, ([] : Str)) ∧
    ([] : Str) ≠ ("Packing list not generated").data := by
  have hnone : splitOnce packing_list_marker s = none :=
    splitOnce_eq_none_of_strIn_false packing_list_marker s h2
  have hnone' : splitOnce (("# Packing List").data) s = none := hnone
  have hparts : pySplit (("# Packing List").data) s = [s] :=
    pySplit_of_none _ s hnone'
  refine ⟨hparts, ?_, by decide⟩
  simp [assistantSplit, h1, hparts]

/-- Claim C10 (witness): the mismatch behaviour on a concrete input. -/
theorem c10_assistant_marker_mismatch_witness :
    strIn (("Packing List").data) (("Packing List:\n- tent").data) = true ∧
    strIn packing_list_marker (("Packing List:\n- tent").data) = false ∧
    assistantSplit (("Packing List:\n- tent").data)
      = ((("Packing List:\n- tent").data), ([] : Str)) :=
  ⟨by decide, by decide,
   (c10_assistant_marker_mismatch (("Packing List:\n- tent").data)
      (by decide) (by decide)).2.1⟩

/-- What the Ollama endpoint does for one request. `netFail` is any
`requests.exceptions.RequestException` (connection refused, timeout,
non-2xx via `raise_for_status`); `okMissing` is a 2xx JSON response
without the `"response"` field; `okResponse t` is a 2xx JSON response
whose `"response"` field holds `t`. -/
inductive Attempt
  | netFail
  | okMissing
  | okResponse (t : Str)
deriving DecidableEq

/-- Observable outcome of one `query_llama` call: how many HTTP requests
were issued, the total seconds slept in backoff, and the returned string
(the function always returns a string, never a structured error). -/
structure RunStats where
  requests : Nat
  slept : Nat
  result : Str
deriving DecidableEq

/-- The message returned by query_llama when all retries fail
(`f"Error: LLM request failed after {max_retries} attempts"`). -/
def exhaustedMsg (max_retries : Nat) : Str :=
  ("Error: LLM request failed after ").data ++ (Nat.repr max_retries).data
    ++ (" attempts").data

/-- The loop body of `query_llama` (travel_assistant.py lines 35-62).
`remaining` counts the iterations left of `for attempt in range(max_retries)`
(so `attempt + remaining = max_retries` at every call); the endpoint is a
function from the 0-indexed attempt number to that request's outcome.
A missing `"response"` field returns immediately without retrying; a
`RequestException` sleeps `2 ** attempt` seconds and retries unless
`attempt == max_retries - 1`; the fall-through return after the loop is
reachable only when the range is empty. -/
def queryGo (endpoint : Nat → Attempt) (max_retries : Nat) :
    Nat → Nat → Nat → Nat → RunStats
  | 0, _, reqs, slept => ⟨reqs, slept, ("Error: LLM request failed").data⟩
  | remaining + 1, attempt, reqs, slept =>
    match endpoint attempt with
    | Attempt.okResponse t => ⟨reqs + 1, slept, t⟩
    | Attempt.okMissing =>
      ⟨reqs + 1, slept, ("Error: Invalid response format from LLM").data⟩
    | Attempt.netFail =>
      if attempt < max_retries - 1 then
        queryGo endpoint max_retries remaining (attempt + 1) (reqs + 1)
          (slept + 2 ^ attempt)
      else
        ⟨reqs + 1, slept, exhaustedMsg max_retries⟩

/-- `query_llama(prompt, max_retries)` (travel_assistant.py lines 26-62).
The prompt goes into the request payload; the endpoint's behaviour per
attempt is abstracted by the `endpoint` function, so the prompt does not
influence the modelled control flow. The source's per-request `timeout`
is absorbed into the endpoint abstraction (a timed-out request is a
`netFail`). -/
def query_llama (prompt : Str) (endpoint : Nat → Attempt)
    (max_retries : Nat) : RunStats :=
  queryGo endpoint max_retries max_retries 0 0 0

theorem queryGo_succ_step (endpoint : Nat → Attempt)
    (mr remaining attempt reqs slept : Nat) :
    queryGo endpoint mr (remaining + 1) attempt reqs slept =
      (match endpoint attempt with
       | Attempt.okResponse t => ⟨reqs + 1, slept, t⟩
       | Attempt.okMissing =>
         ⟨reqs + 1, slept, ("Error: Invalid response format from LLM").data⟩
       | Attempt.netFail =>
         if attempt < mr - 1 then
           queryGo endpoint mr remaining (attempt + 1) (reqs + 1)
             (slept + 2 ^ attempt)
         else ⟨reqs + 1, slept, exhaustedMsg mr⟩) := rfl

theorem queryGo_succeeds (endpoint : Nat → Attempt) (N : Nat) (t : Str) :
    ∀ (k rem a reqs slept : Nat), k < rem → a + rem = N →
      (∀ i, i < k → endpoint (a + i) = Attempt.netFail) →
      endpoint (a + k) = Attempt.okResponse t →
      queryGo endpoint N rem a reqs slept =
        ⟨reqs + (k + 1),
         slept + Finset.sum (Finset.range k) (fun i => 2 ^ (a + i)), t⟩ := by
  intro k
  induction k with
  | zero =>
    intro rem a reqs slept hlt hN _ hok
    cases rem with
    | zero => omega
    | succ r =>
      simp only [Nat.add_zero] at hok
      simp [queryGo, hok]
  | succ k ih =>
    intro rem a reqs slept hlt hN hfail hok
    cases rem with
    | zero => omega
    | succ r =>
      have h0 : endpoint a = Attempt.netFail := by
        have := hfail 0 (by omega)
        simpa using this
      have hcond : a < N - 1 := by omega
      have hrec := ih r (a + 1) (reqs + 1) (slept + 2 ^ a) (by omega) (by omega)
        (fun i hi => by
          have := hfail (i + 1) (by omega)
          simpa [Nat.add_assoc, Nat.add_comm 1 i] using this)
        (by
          have : a + 1 + k = a + (k + 1) := by omega
          rw [this]
          exact hok)
      have hsum : Finset.sum (Finset.range (k + 1)) (fun i => 2 ^ (a + i))
          = Finset.sum (Finset.range k) (fun i => 2 ^ (a + 1 + i)) + 2 ^ a := by
        rw [Finset.sum_range_succ' (fun i => 2 ^ (a + i)) k]
        simp only [Nat.add_zero]
        congr 1
        refine Finset.sum_congr rfl (fun i _ => ?_)
        congr 1
        omega
      simp only [queryGo, h0, if_pos hcond, hrec]
      have hreq : reqs + 1 + (k + 1) = reqs + (k + 1 + 1) := by omega
      have hslept : slept + 2 ^ a
            + Finset.sum (Finset.range k) (fun i => 2 ^ (a + 1 + i))
          = slept + Finset.sum (Finset.range (k + 1)) (fun i => 2 ^ (a + i)) := by
        rw [hsum]
        omega
      rw [hreq, hslept]

theorem queryGo_exhausts (endpoint : Nat → Attempt) (N : Nat) :
    ∀ (rem a reqs slept : Nat), 1 ≤ rem → a + rem = N →
      (∀ i, i < rem → endpoint (a + i) = Attempt.netFail) →
      queryGo endpoint N rem a reqs slept =
        ⟨reqs + rem,
         slept + Finset.sum (Finset.range (rem - 1)) (fun i => 2 ^ (a + i)),
         exhaustedMsg N⟩ := by
  intro rem
  induction rem with
  | zero => intro a reqs slept h1; omega
  | succ r ih =>
    intro a reqs slept _ hN hfail
    have h0 : endpoint a = Attempt.netFail := by
      have := hfail 0 (by omega)
      simpa using this
    cases r with
    | zero =>
      have hcond : ¬ a < N - 1 := by omega
      simp [queryGo, h0, hcond, exhaustedMsg]
    | succ r' =>
      have hcond : a < N - 1 := by omega
      have hrec := ih (a + 1) (reqs + 1) (slept + 2 ^ a) (by omega) (by omega)
        (fun i hi => by
          have := hfail (i + 1) (by omega)
          simpa [Nat.add_assoc, Nat.add_comm 1 i] using this)
      simp only [Nat.add_sub_cancel] at hrec
      have hsum : Finset.sum (Finset.range (r' + 1)) (fun i => 2 ^ (a + i))
          = Finset.sum (Finset.range r') (fun i => 2 ^ (a + 1 + i)) + 2 ^ a := by
        rw [Finset.sum_range_succ' (fun i => 2 ^ (a + i)) r']
        simp only [Nat.add_zero]
        congr 1
        refine Finset.sum_congr rfl (fun i _ => ?_)
        congr 1
        omega
      rw [queryGo_succ_step, h0]
      simp only [if_pos hcond, hrec, Nat.add_sub_cancel]
      have hreq : reqs + 1 + (r' + 1) = reqs + (r' + 1 + 1) := by omega
      have hslept : slept + 2 ^ a
            + Finset.sum (Finset.range r') (fun i => 2 ^ (a + 1 + i))
          = slept + Finset.sum (Finset.range (r' + 1)) (fun i => 2 ^ (a + i)) := by
        rw [hsum]
        omega
      rw [hreq, hslept]

/-- Claim C3: for every endpoint behaviour and bound N >= 1, if the first
k < N requests fail transiently and request k succeeds with text t, then
query_llama issues exactly k+1 requests, returns t, and sleeps
2^0 + ... + 2^(k-1) seconds in total (the source's backoff base is one
second); if all N requests fail transiently it issues exactly N requests
and sleeps only after the first N-1 of them, never after the final one. -/
theorem c3_retry_backoff (prompt : Str) (endpoint : Nat → Attempt)
    (N k : Nat) (t : Str) (hN : 1 ≤ N) :
    (k < N → (∀ i, i < k → endpoint i = Attempt.netFail) →
      endpoint k = Attempt.okResponse t →
      query_llama prompt endpoint N =
        ⟨k + 1, Finset.sum (Finset.range k) (fun i => 2 ^ i), t⟩) ∧
    ((∀ i, i < N → endpoint i = Attempt.netFail) →
      query_llama prompt endpoint N =
        ⟨N, Finset.sum (Finset.range (N - 1)) (fun i => 2 ^ i),
         exhaustedMsg N⟩) := by
  constructor
  · intro hk hfail hok
    have := queryGo_succeeds endpoint N t k N 0 0 0 hk (by omega)
      (fun i hi => by simpa using hfail i hi) (by simpa using hok)
    simpa using this
  · intro hfail
    have := queryGo_exhausts endpoint N N 0 0 0 hN (by omega)
      (fun i hi => by simpa using hfail i hi)
    simpa using this

/-- Claim C3 (witness): a stub endpoint failing twice then succeeding at
bound 4 gives 3 requests and 1+2 = 3 seconds of sleep; a stub that always
fails gives 4 requests and 1+2+4 = 7 seconds of sleep. -/
theorem c3_retry_backoff_witness :
    query_llama (("plan").data)
        (fun i => if i < 2 then Attempt.netFail else Attempt.okResponse (("hi").data)) 4
      = ⟨2 + 1, Finset.sum (Finset.range 2) (fun i => 2 ^ i), ("hi").data⟩ ∧
    query_llama (("plan").data) (fun _ => Attempt.netFail) 4
      = ⟨4, Finset.sum (Finset.range (4 - 1)) (fun i => 2 ^ i), exhaustedMsg 4⟩ :=
  ⟨(c3_retry_backoff (("plan").data)
      (fun i => if i < 2 then Attempt.netFail else Attempt.okResponse (("hi").data))
      4 2 (("hi").data) (by decide)).1 (by decide)
      (fun i hi => by interval_cases i <;> decide) (by decide),
   (c3_retry_backoff (("plan").data) (fun _ => Attempt.netFail) 4 0 ([])
      (by decide)).2 (fun i _ => rfl)⟩

/-- Claim C1: when every request fails transiently, query_llama with the
default bound 3 issues 3 requests and returns the plain string
`"Error: LLM request failed after 3 attempts"`; that value is identical
to what a successful call returns when the model itself outputs that
text, so the caller cannot distinguish exhaustion from real model output
and there is no typed Exhausted error value. -/
theorem c1_exhaustion_returns_plain_string :
    query_llama (("plan a trip").data) (fun _ => Attempt.netFail) 3
      = ⟨3, 3, ("Error: LLM request failed after 3 attempts").data⟩ ∧
    (query_llama (("plan a trip").data)
        (fun _ => Attempt.okResponse
          (("Error: LLM request failed after 3 attempts").data)) 3).result
      = (query_llama (("plan a trip").data) (fun _ => Attempt.netFail) 3).result := by
  decide

/-- Claim C4: a parseable response missing the `response` field makes
query_llama return after exactly one request with no backoff sleep (the
no-retry half of the claim holds), but the returned value is the plain
string `"Error: Invalid response format from LLM"`, identical to what a
successful call returns when the model itself outputs that text — not a
typed MalformedResponseError. -/
theorem c4_malformed_returns_plain_string :
    query_llama (("estimate costs").data) (fun _ => Attempt.okMissing) 3
      = ⟨1, 0, ("Error: Invalid response format from LLM").data⟩ ∧
    (query_llama (("estimate costs").data)
        (fun _ => Attempt.okResponse
          (("Error: Invalid response format from LLM").data)) 3).result
      = (query_llama (("estimate costs").data) (fun _ => Attempt.okMissing) 3).result := by
  decide

/-- The five pipeline stages, in the order both variants run them. -/
inductive Stage
  | itinerary
  | experiences
  | recommendations
  | safety
  | budget
deriving DecidableEq, Fintype

/-- Position of a stage in the fixed execution order. -/
def stageIdx : Stage → Nat
  | Stage.itinerary => 0
  | Stage.experiences => 1
  | Stage.recommendations => 2
  | Stage.safety => 3
  | Stage.budget => 4

/-- Terminal status of one processing run (`status.update` state). -/
inductive PState
  | completed
  | failed
deriving DecidableEq

/-- The `st.session_state.results` dictionary restricted to the keys the
two processing blocks write: the five stage keys, the derived `packing`
key, and travel_crew.py's `error` key. `none` means the key is absent. -/
structure SessionResults where
  itinerary : Option Str
  experiences : Option Str
  recommendations : Option Str
  safety : Option Str
  budget : Option Str
  packing : Option Str
  error : Option Str
deriving DecidableEq

/-- A results dictionary with no keys set. -/
def emptyResults : SessionResults := ⟨none, none, none, none, none, none, none⟩

/-- The results entry stored under a stage's key. -/
def lookupRes (r : SessionResults) : Stage → Option Str
  | Stage.itinerary => r.itinerary
  | Stage.experiences => r.experiences
  | Stage.recommendations => r.recommendations
  | Stage.safety => r.safety
  | Stage.budget => r.budget

/-- Observable events of one processing run, in order: a stage call
dispatched, the budget/packing partition performed, and the terminal
status update. -/
inductive Event
  | dispatch (s : Stage)
  | partitioned
  | terminalComplete
  | terminalFailed
deriving DecidableEq

/-- Everything observable about one processing run. -/
structure RunOutcome where
  results : SessionResults
  state : PState
  events : List Event
deriving DecidableEq

/-- Whether a stage call succeeded. -/
def isOkB : Except Str Str → Bool
  | Except.ok _ => true
  | Except.error _ => false

/-- The text of a successful stage call. -/
def okText : Except Str Str → Option Str
  | Except.ok t => some t
  | Except.error _ => none

/-- The processing block of travel_assistant.py (lines 206-242): each
agent is called in turn and its result is stored into the session results
dictionary immediately; a stage call that raises aborts the remaining
stages but the except handler (lines 238-242) leaves the already-stored
results in place. A stage call is abstracted as `Except Str Str` since
exceptions (e.g. a JSON decode error escaping `query_llama`) can abort
any stage. On budget success the inline split (lines 226-232, embedded
as `assistantSplit`) runs before the `complete` status update. -/
def assistantRun (client : Stage → Except Str Str)
    (init : SessionResults) : RunOutcome :=
  match client Stage.itinerary with
  | Except.error _ =>
    ⟨init, PState.failed, [Event.dispatch Stage.itinerary, Event.terminalFailed]⟩
  | Except.ok t1 =>
    let r1 : SessionResults := ⟨some t1, init.experiences, init.recommendations,
      init.safety, init.budget, init.packing, init.error⟩
    match client Stage.experiences with
    | Except.error _ =>
      ⟨r1, PState.failed, [Event.dispatch Stage.itinerary,
        Event.dispatch Stage.experiences, Event.terminalFailed]⟩
    | Except.ok t2 =>
      let r2 : SessionResults := ⟨r1.itinerary, some t2, r1.recommendations,
        r1.safety, r1.budget, r1.packing, r1.error⟩
      match client Stage.recommendations with
      | Except.error _ =>
        ⟨r2, PState.failed, [Event.dispatch Stage.itinerary,
          Event.dispatch Stage.experiences, Event.dispatch Stage.recommendations,
          Event.terminalFailed]⟩
      | Except.ok t3 =>
        let r3 : SessionResults := ⟨r2.itinerary, r2.experiences, some t3,
          r2.safety, r2.budget, r2.packing, r2.error⟩
        match client Stage.safety with
        | Except.error _ =>
          ⟨r3, PState.failed, [Event.dispatch Stage.itinerary,
            Event.dispatch Stage.experiences, Event.dispatch Stage.recommendations,
            Event.dispatch Stage.safety, Event.terminalFailed]⟩
        | Except.ok t4 =>
          let r4 : SessionResults := ⟨r3.itinerary, r3.experiences,
            r3.recommendations, some t4, r3.budget, r3.packing, r3.error⟩
          match client Stage.budget with
          | Except.error _ =>
            ⟨r4, PState.failed, [Event.dispatch Stage.itinerary,
              Event.dispatch Stage.experiences, Event.dispatch Stage.recommendations,
              Event.dispatch Stage.safety, Event.dispatch Stage.budget,
              Event.terminalFailed]⟩
          | Except.ok b =>
            let bp := assistantSplit b
            let r5 : SessionResults := ⟨r4.itinerary, r4.experiences,
              r4.recommendations, r4.safety, some bp.1, some bp.2, r4.error⟩
            ⟨r5, PState.completed, [Event.dispatch Stage.itinerary,
              Event.dispatch Stage.experiences, Event.dispatch Stage.recommendations,
              Event.dispatch Stage.safety, Event.dispatch Stage.budget,
              Event.partitioned, Event.terminalComplete]⟩

/-- Models `Crew.kickoff` with `Process.sequential` (external CrewAI
library, configured at travel_crew.py lines 330-340): the five tasks
execute one after another in the order of the task list, and a failing
task raises out of `kickoff`, discarding the later tasks. -/
def crewKickoff (client : Stage → Except Str Str) :
    List Event × Except Str (Str × Str × Str × Str × Str) :=
  match client Stage.itinerary with
  | Except.error e => ([Event.dispatch Stage.itinerary], Except.error e)
  | Except.ok t1 =>
    match client Stage.experiences with
    | Except.error e =>
      ([Event.dispatch Stage.itinerary, Event.dispatch Stage.experiences],
       Except.error e)
    | Except.ok t2 =>
      match client Stage.recommendations with
      | Except.error e =>
        ([Event.dispatch Stage.itinerary, Event.dispatch Stage.experiences,
          Event.dispatch Stage.recommendations], Except.error e)
      | Except.ok t3 =>
        match client Stage.safety with
        | Except.error e =>
          ([Event.dispatch Stage.itinerary, Event.dispatch Stage.experiences,
            Event.dispatch Stage.recommendations, Event.dispatch Stage.safety],
           Except.error e)
        | Except.ok t4 =>
          match client Stage.budget with
          | Except.error e =>
            ([Event.dispatch Stage.itinerary, Event.dispatch Stage.experiences,
              Event.dispatch Stage.recommendations, Event.dispatch Stage.safety,
              Event.dispatch Stage.budget], Except.error e)
          | Except.ok t5 =>
            ([Event.dispatch Stage.itinerary, Event.dispatch Stage.experiences,
              Event.dispatch Stage.recommendations, Event.dispatch Stage.safety,
              Event.dispatch Stage.budget], Except.ok (t1, t2, t3, t4, t5))

/-- The processing block of travel_crew.py (lines 321-377): the results
dictionary is built only after `kickoff` returns, then the packing
extraction (lines 352-363, embedded as `crewSplit`) rewrites the budget
entry; the except handler (lines 370-377) replaces the whole results
dictionary with `{"error": f"Failed to generate plan: {e}"}`, discarding
every completed task output. -/
def crewRun (client : Stage → Except Str Str) : RunOutcome :=
  match crewKickoff client with
  | (evs, Except.error e) =>
    ⟨⟨none, none, none, none, none, none,
      some (("Failed to generate plan: ").data ++ e)⟩,
     PState.failed, evs ++ [Event.terminalFailed]⟩
  | (evs, Except.ok (t1, t2, t3, t4, t5)) =>
    let bp := crewSplit t5
    ⟨⟨some t1, some t2, some t3, some t4, some bp.1, some bp.2, none⟩,
     PState.completed, evs ++ [Event.partitioned, Event.terminalComplete]⟩

/-- Claim C2: when the first failing stage is `s` (every earlier stage
succeeds), the travel_assistant run ends Failed but its results retain
every stage output completed before `s`, while the travel_crew run ends
Failed with a results dictionary holding only the error descriptor; when
at least one stage completed first, the two result dictionaries differ,
so the two pipelines are not equivalent on failing runs. -/
theorem c2_failure_policies (client : Stage → Except Str Str) (s : Stage)
    (e : Str) (hfail : client s = Except.error e)
    (hpre : ∀ s2, stageIdx s2 < stageIdx s → isOkB (client s2) = true) :
    (assistantRun client emptyResults).state = PState.failed ∧
    (∀ s2, stageIdx s2 < stageIdx s →
      lookupRes (assistantRun client emptyResults).results s2
        = okText (client s2)) ∧
    (crewRun client).results
      = ⟨none, none, none, none, none, none,
         some (("Failed to generate plan: ").data ++ e)⟩ ∧
    (crewRun client).state = PState.failed ∧
    (0 < stageIdx s →
      (assistantRun client emptyResults).results ≠ (crewRun client).results) := by
  cases s with
  | itinerary =>
    refine ⟨?_, ?_, ?_, ?_, ?_⟩
    · simp [assistantRun, hfail]
    · intro s2 h2
      have h0 : stageIdx Stage.itinerary = 0 := rfl
      omega
    · simp [crewRun, crewKickoff, hfail]
    · simp [crewRun, crewKickoff, hfail]
    · intro h
      simp [stageIdx] at h
  | experiences =>
    obtain ⟨t1, h1⟩ : ∃ t, client Stage.itinerary = Except.ok t := by
      have hx := hpre Stage.itinerary (by decide)
      cases hc : client Stage.itinerary with
      | error err => rw [hc] at hx; simp [isOkB] at hx
      | ok t => exact ⟨t, rfl⟩
    refine ⟨?_, ?_, ?_, ?_, ?_⟩
    · simp [assistantRun, h1, hfail]
    · intro s2 h2
      cases s2 with
      | itinerary => simp [assistantRun, h1, hfail, lookupRes, emptyResults, okText]
      | experiences => simp [stageIdx] at h2
      | recommendations => simp [stageIdx] at h2
      | safety => simp [stageIdx] at h2
      | budget => simp [stageIdx] at h2
    · simp [crewRun, crewKickoff, h1, hfail]
    · simp [crewRun, crewKickoff, h1, hfail]
    · intro _ heq
      have hfield := congrArg SessionResults.itinerary heq
      simp [assistantRun, h1, hfail, crewRun, crewKickoff, emptyResults] at hfield
  | recommendations =>
    obtain ⟨t1, h1⟩ : ∃ t, client Stage.itinerary = Except.ok t := by
      have hx := hpre Stage.itinerary (by decide)
      cases hc : client Stage.itinerary with
      | error err => rw [hc] at hx; simp [isOkB] at hx
      | ok t => exact ⟨t, rfl⟩
    obtain ⟨t2, h2⟩ : ∃ t, client Stage.experiences = Except.ok t := by
      have hx := hpre Stage.experiences (by decide)
      cases hc : client Stage.experiences with
      | error err => rw [hc] at hx; simp [isOkB] at hx
      | ok t => exact ⟨t, rfl⟩
    refine ⟨?_, ?_, ?_, ?_, ?_⟩
    · simp [assistantRun, h1, h2, hfail]
    · intro s2 hs2
      cases s2 with
      | itinerary => simp [assistantRun, h1, h2, hfail, lookupRes, emptyResults, okText]
      | experiences => simp [assistantRun, h1, h2, hfail, lookupRes, emptyResults, okText]
      | recommendations => simp [stageIdx] at hs2
      | safety => simp [stageIdx] at hs2
      | budget => simp [stageIdx] at hs2
    · simp [crewRun, crewKickoff, h1, h2, hfail]
    · simp [crewRun, crewKickoff, h1, h2, hfail]
    · intro _ heq
      have hfield := congrArg SessionResults.itinerary heq
      simp [assistantRun, h1, h2, hfail, crewRun, crewKickoff, emptyResults] at hfield
  | safety =>
    obtain ⟨t1, h1⟩ : ∃ t, client Stage.itinerary = Except.ok t := by
      have hx := hpre Stage.itinerary (by decide)
      cases hc : client Stage.itinerary with
      | error err => rw [hc] at hx; simp [isOkB] at hx
      | ok t => exact ⟨t, rfl⟩
    obtain ⟨t2, h2⟩ : ∃ t, client Stage.experiences = Except.ok t := by
      have hx := hpre Stage.experiences (by decide)
      cases hc : client Stage.experiences with
      | error err => rw [hc] at hx; simp [isOkB] at hx
      | ok t => exact ⟨t, rfl⟩
    obtain ⟨t3, h3⟩ : ∃ t, client Stage.recommendations = Except.ok t := by
      have hx := hpre Stage.recommendations (by decide)
      cases hc : client Stage.recommendations with
      | error err => rw [hc] at hx; simp [isOkB] at hx
      | ok t => exact ⟨t, rfl⟩
    refine ⟨?_, ?_, ?_, ?_, ?_⟩
    · simp [assistantRun, h1, h2, h3, hfail]
    · intro s2 hs2
      cases s2 with
      | itinerary => simp [assistantRun, h1, h2, h3, hfail, lookupRes, emptyResults, okText]
      | experiences => simp [assistantRun, h1, h2, h3, hfail, lookupRes, emptyResults, okText]
      | recommendations => simp [assistantRun, h1, h2, h3, hfail, lookupRes, emptyResults, okText]
      | safety => simp [stageIdx] at hs2
      | budget => simp [stageIdx] at hs2
    · simp [crewRun, crewKickoff, h1, h2, h3, hfail]
    · simp [crewRun, crewKickoff, h1, h2, h3, hfail]
    · intro _ heq
      have hfield := congrArg SessionResults.itinerary heq
      simp [assistantRun, h1, h2, h3, hfail, crewRun, crewKickoff, emptyResults] at hfield
  | budget =>
    obtain ⟨t1, h1⟩ : ∃ t, client Stage.itinerary = Except.ok t := by
      have hx := hpre Stage.itinerary (by decide)
      cases hc : client Stage.itinerary with
      | error err => rw [hc] at hx; simp [isOkB] at hx
      | ok t => exact ⟨t, rfl⟩
    obtain ⟨t2, h2⟩ : ∃ t, client Stage.experiences = Except.ok t := by
      have hx := hpre Stage.experiences (by decide)
      cases hc : client Stage.experiences with
      | error err => rw [hc] at hx; simp [isOkB] at hx
      | ok t => exact ⟨t, rfl⟩
    obtain ⟨t3, h3⟩ : ∃ t, client Stage.recommendations = Except.ok t := by
      have hx := hpre Stage.recommendations (by decide)
      cases hc : client Stage.recommendations with
      | error err => rw [hc] at hx; simp [isOkB] at hx
      | ok t => exact ⟨t, rfl⟩
    obtain ⟨t4, h4⟩ : ∃ t, client Stage.safety = Except.ok t := by
      have hx := hpre Stage.safety (by decide)
      cases hc : client Stage.safety with
      | error err => rw [hc] at hx; simp [isOkB] at hx
      | ok t => exact ⟨t, rfl⟩
    refine ⟨?_, ?_, ?_, ?_, ?_⟩
    · simp [assistantRun, h1, h2, h3, h4, hfail]
    · intro s2 hs2
      cases s2 with
      | itinerary => simp [assistantRun, h1, h2, h3, h4, hfail, lookupRes, emptyResults, okText]
      | experiences => simp [assistantRun, h1, h2, h3, h4, hfail, lookupRes, emptyResults, okText]
      | recommendations => simp [assistantRun, h1, h2, h3, h4, hfail, lookupRes, emptyResults, okText]
      | safety => simp [assistantRun, h1, h2, h3, h4, hfail, lookupRes, emptyResults, okText]
      | budget => simp [stageIdx] at hs2
    · simp [crewRun, crewKickoff, h1, h2, h3, h4, hfail]
    · simp [crewRun, crewKickoff, h1, h2, h3, h4, hfail]
    · intro _ heq
      have hfield := congrArg SessionResults.itinerary heq
      simp [assistantRun, h1, h2, h3, h4, hfail, crewRun, crewKickoff, emptyResults] at hfield

/-- Claim C2 (witness): a client whose first two stages succeed and whose
recommendations stage fails. -/
theorem c2_failure_policies_witness :
    (assistantRun (fun s => match s with
        | Stage.itinerary => Except.ok (("A").data)
        | Stage.experiences => Except.ok (("B").data)
        | _ => Except.error (("boom").data)) emptyResults).state
      = PState.failed ∧
    lookupRes (assistantRun (fun s => match s with
        | Stage.itinerary => Except.ok (("A").data)
        | Stage.experiences => Except.ok (("B").data)
        | _ => Except.error (("boom").data)) emptyResults).results Stage.itinerary
      = okText (Except.ok (("A").data)) ∧
    (crewRun (fun s => match s with
        | Stage.itinerary => Except.ok (("A").data)
        | Stage.experiences => Except.ok (("B").data)
        | _ => Except.error (("boom").data))).results
      = ⟨none, none, none, none, none, none,
         some (("Failed to generate plan: ").data ++ ("boom").data)⟩ ∧
    (assistantRun (fun s => match s with
        | Stage.itinerary => Except.ok (("A").data)
        | Stage.experiences => Except.ok (("B").data)
        | _ => Except.error (("boom").data)) emptyResults).results
      ≠ (crewRun (fun s => match s with
        | Stage.itinerary => Except.ok (("A").data)
        | Stage.experiences => Except.ok (("B").data)
        | _ => Except.error (("boom").data))).results :=
  ⟨(c2_failure_policies _ Stage.recommendations (("boom").data) rfl
      (by decide)).1,
   (c2_failure_policies _ Stage.recommendations (("boom").data) rfl
      (by decide)).2.1 Stage.itinerary (by decide),
   (c2_failure_policies _ Stage.recommendations (("boom").data) rfl
      (by decide)).2.2.1,
   (c2_failure_policies _ Stage.recommendations (("boom").data) rfl
      (by decide)).2.2.2.2 (by decide)⟩

/-- Claim C8: on a successful run, both variants dispatch the five stage
calls in exactly the order Itinerary, Experiences, Recommendations,
Safety, Budget, and the budget/packing partition happens synchronously
after the Budget stage and before the terminal Completed state. -/
theorem c8_stage_order (client : Stage → Except Str Str)
    (h : ∀ s, isOkB (client s) = true) :
    (assistantRun client emptyResults).events
      = [Event.dispatch Stage.itinerary, Event.dispatch Stage.experiences,
         Event.dispatch Stage.recommendations, Event.dispatch Stage.safety,
         Event.dispatch Stage.budget, Event.partitioned,
         Event.terminalComplete] ∧
    (crewRun client).events
      = [Event.dispatch Stage.itinerary, Event.dispatch Stage.experiences,
         Event.dispatch Stage.recommendations, Event.dispatch Stage.safety,
         Event.dispatch Stage.budget, Event.partitioned,
         Event.terminalComplete] ∧
    (assistantRun client emptyResults).state = PState.completed ∧
    (crewRun client).state = PState.completed := by
  obtain ⟨t1, h1⟩ : ∃ t, client Stage.itinerary = Except.ok t := by
    have hx := h Stage.itinerary
    cases hc : client Stage.itinerary with
    | error err => rw [hc] at hx; simp [isOkB] at hx
    | ok t => exact ⟨t, rfl⟩
  obtain ⟨t2, h2⟩ : ∃ t, client Stage.experiences = Except.ok t := by
    have hx := h Stage.experiences
    cases hc : client Stage.experiences with
    | error err => rw [hc] at hx; simp [isOkB] at hx
    | ok t => exact ⟨t, rfl⟩
  obtain ⟨t3, h3⟩ : ∃ t, client Stage.recommendations = Except.ok t := by
    have hx := h Stage.recommendations
    cases hc : client Stage.recommendations with
    | error err => rw [hc] at hx; simp [isOkB] at hx
    | ok t => exact ⟨t, rfl⟩
  obtain ⟨t4, h4⟩ : ∃ t, client Stage.safety = Except.ok t := by
    have hx := h Stage.safety
    cases hc : client Stage.safety with
    | error err => rw [hc] at hx; simp [isOkB] at hx
    | ok t => exact ⟨t, rfl⟩
  obtain ⟨t5, h5⟩ : ∃ t, client Stage.budget = Except.ok t := by
    have hx := h Stage.budget
    cases hc : client Stage.budget with
    | error err => rw [hc] at hx; simp [isOkB] at hx
    | ok t => exact ⟨t, rfl⟩
  refine ⟨?_, ?_, ?_, ?_⟩
  · simp [assistantRun, h1, h2, h3, h4, h5]
  · simp [crewRun, crewKickoff, h1, h2, h3, h4, h5]
  · simp [assistantRun, h1, h2, h3, h4, h5]
  · simp [crewRun, crewKickoff, h1, h2, h3, h4, h5]

/-- Claim C8 (witness): the order of events under a stub client whose
every stage succeeds. -/
theorem c8_stage_order_witness :
    (∀ s, isOkB ((fun _ => Except.ok (("text").data) :
        Stage → Except Str Str) s) = true) ∧
    (assistantRun (fun _ => Except.ok (("text").data)) emptyResults).events
      = [Event.dispatch Stage.itinerary, Event.dispatch Stage.experiences,
         Event.dispatch Stage.recommendations, Event.dispatch Stage.safety,
         Event.dispatch Stage.budget, Event.partitioned,
         Event.terminalComplete] ∧
    (crewRun (fun _ => Except.ok (("text").data))).events
      = [Event.dispatch Stage.itinerary, Event.dispatch Stage.experiences,
         Event.dispatch Stage.recommendations, Event.dispatch Stage.safety,
         Event.dispatch Stage.budget, Event.partitioned,
         Event.terminalComplete] :=
  ⟨fun _ => rfl,
   (c8_stage_order (fun _ => Except.ok (("text").data)) (fun _ => rfl)).1,
   (c8_stage_order (fun _ => Except.ok (("text").data)) (fun _ => rfl)).2.1⟩

theorem queryGo_requests_le (endpoint : Nat → Attempt) (N : Nat) :
    ∀ (rem a reqs slept : Nat),
      reqs ≤ (queryGo endpoint N rem a reqs slept).requests := by
  intro rem
  induction rem with
  | zero => intro a reqs slept; simp [queryGo]
  | succ r ih =>
    intro a reqs slept
    rw [queryGo_succ_step]
    cases he : endpoint a with
    | okResponse t => simp
    | okMissing => simp
    | netFail =>
      by_cases hc : a < N - 1
      · have := ih (a + 1) (reqs + 1) (slept + 2 ^ a)
        simp only [if_pos hc]
        omega
      · simp only [if_neg hc]
        simp

theorem queryGo_requests_succ (endpoint : Nat → Attempt)
    (N rem a reqs slept : Nat) (h : 1 ≤ rem) :
    reqs + 1 ≤ (queryGo endpoint N rem a reqs slept).requests := by
  cases rem with
  | zero => omega
  | succ r =>
    rw [queryGo_succ_step]
    cases he : endpoint a with
    | okResponse t => simp
    | okMissing => simp
    | netFail =>
      by_cases hc : a < N - 1
      · have := queryGo_requests_le endpoint N r (a + 1) (reqs + 1) (slept + 2 ^ a)
        simp only [if_pos hc]
        omega
      · simp only [if_neg hc]
        simp

/-- The `user_input` dictionary built by the sidebar (travel_assistant.py
lines 189-199): dates already rendered as strings, duration in days, a
positive traveler count, and free-text fields. -/
structure TripRequest where
  start_date : Str
  end_date : Str
  duration : Nat
  from_location : Str
  destination : Str
  num_people : Nat
  traveler_type : Str
  budget_level : Str
  special_requests : Str

/-- `planner_agent` (travel_assistant.py lines 65-80): renders the
itinerary prompt by interpolation and calls `query_llama` with the
default bound of 3 attempts. No field is validated. -/
def planner_agent (user_input : TripRequest) (endpoint : Nat → Attempt) :
    RunStats :=
  let prompt : Str :=
    ("\n    You are a Senior Travel Planner. Create a ").data
    ++ (Nat.repr user_input.duration).data
    ++ ("-day itinerary for a trip from ").data ++ user_input.start_date
    ++ (" to ").data ++ user_input.end_date
    ++ (".\n    Destination: ").data ++ user_input.destination
    ++ ("\n    Travelers: ").data ++ (Nat.repr user_input.num_people).data
    ++ (" ").data ++ user_input.traveler_type ++ (" travelers").data
    ++ ("\n    Special requests: ").data ++ user_input.special_requests
    ++ ("\n    \n    Output format:\n    # Travel Itinerary for ").data
    ++ user_input.destination
    ++ ("\n    ## Day 1: [Date]\n    - [Time]: [Activity]\n    - [Time]: [Activity]\n    ...\n    ").data
  query_llama prompt endpoint 3

/-- `experience_agent` (travel_assistant.py lines 82-97). -/
def experience_agent (user_input : TripRequest) (endpoint : Nat → Attempt) :
    RunStats :=
  let prompt : Str :=
    ("\n    You are a Local Experience Specialist. Recommend activities in ").data
    ++ user_input.destination ++ (" for ").data ++ user_input.traveler_type
    ++ (" travelers.\n    Special requests: ").data ++ user_input.special_requests
    ++ ("\n    \n    Output format:\n    # Local Experiences in ").data
    ++ user_input.destination
    ++ ("\n    ## Must-Try Activities\n    - [Activity 1]: [Description]\n    - [Activity 2]: [Description]\n    \n    ## Cultural Experiences\n    - [Experience 1]: [Description]\n    ").data
  query_llama prompt endpoint 3

/-- `recommendation_agent` (travel_assistant.py lines 99-113). -/
def recommendation_agent (user_input : TripRequest)
    (endpoint : Nat → Attempt) : RunStats :=
  let prompt : Str :=
    ("\n    You are a Hospitality Concierge. Recommend hotels and transport in ").data
    ++ user_input.destination ++ (" for ").data
    ++ (Nat.repr user_input.num_people).data ++ (" ").data
    ++ user_input.traveler_type
    ++ (" travelers.\n    Budget level: ").data ++ user_input.budget_level
    ++ ("\n    \n    Output format:\n    # Accommodations & Transport\n    ## Hotels\n    - [Option 1]: [Price range], [Features]\n    \n    ## Transportation\n    - [Option 1]: [Description]\n    ").data
  query_llama prompt endpoint 3

/-- `safety_agent` (travel_assistant.py lines 115-131). -/
def safety_agent (user_input : TripRequest) (endpoint : Nat → Attempt) :
    RunStats :=
  let prompt : Str :=
    ("\n    You are a Travel Security Advisor. Provide safety tips for ").data
    ++ user_input.destination ++ (" during ").data ++ user_input.start_date
    ++ (" to ").data ++ user_input.end_date
    ++ (".\n    \n    Output format:\n    # Safety Information\n    ## Travel Advisories\n    - [Advisory 1]\n    \n    ## Health Recommendations\n    - [Recommendation 1]\n    \n    ## Emergency Contacts\n    - [Contact 1]\n    ").data
  query_llama prompt endpoint 3

/-- `budget_agent` (travel_assistant.py lines 133-150). -/
def budget_agent (user_input : TripRequest) (endpoint : Nat → Attempt) :
    RunStats :=
  let prompt : Str :=
    ("\n    You are a Travel Finance Manager. Estimate costs for ").data
    ++ (Nat.repr user_input.num_people).data
    ++ (" people traveling to ").data ++ user_input.destination
    ++ (" for ").data ++ (Nat.repr user_input.duration).data
    ++ (" days. Also suggest packing items.\n    \n    Output format:\n    # Budget Estimate\n    ## Cost Breakdown\n    - Accommodation: [Estimate]\n    - Transportation: [Estimate]\n    - Total: [Total Estimate]\n    \n    # Packing List\n    - [Category 1]\n      - [Item 1]\n      - [Item 2]\n    ").data
  query_llama prompt endpoint 3

/-- Claim C7 (counterexample): with an empty destination, planner_agent
still performs a network request (request count 1, not 0) and returns the
model text as a success; no validation failure of any kind occurs before
the call. -/
theorem c7_counterexample :
    (⟨("2024-01-01").data, ("2024-01-08").data, 7, ("New York").data, [],
      2, ("Couple").data, ("Mid-range").data, ("Vegetarian food").data⟩ :
      TripRequest).destination = [] ∧
    (planner_agent
      ⟨("2024-01-01").data, ("2024-01-08").data, 7, ("New York").data, [],
        2, ("Couple").data, ("Mid-range").data, ("Vegetarian food").data⟩
      (fun _ => Attempt.okResponse (("day plan").data))).requests = 1 ∧
    (planner_agent
      ⟨("2024-01-01").data, ("2024-01-08").data, 7, ("New York").data, [],
        2, ("Couple").data, ("Mid-range").data, ("Vegetarian food").data⟩
      (fun _ => Attempt.okResponse (("day plan").data))).result
      = ("day plan").data := by
  refine ⟨rfl, rfl, rfl⟩

/-- Claim C7 (amended): no stage validates the request. For every
TripRequest, including one whose destination is empty, every agent
renders its prompt by plain interpolation and issues at least one network
request; there is no ValidationError value anywhere in the code. -/
theorem c7_no_validation_amended (u : TripRequest) (endpoint : Nat → Attempt)
    (h : u.destination = []) :
    1 ≤ (planner_agent u endpoint).requests ∧
    1 ≤ (experience_agent u endpoint).requests ∧
    1 ≤ (recommendation_agent u endpoint).requests ∧
    1 ≤ (safety_agent u endpoint).requests ∧
    1 ≤ (budget_agent u endpoint).requests := by
  refine ⟨?_, ?_, ?_, ?_, ?_⟩
  · simpa [planner_agent, query_llama] using
      queryGo_requests_succ endpoint 3 3 0 0 0 (by omega)
  · simpa [experience_agent, query_llama] using
      queryGo_requests_succ endpoint 3 3 0 0 0 (by omega)
  · simpa [recommendation_agent, query_llama] using
      queryGo_requests_succ endpoint 3 3 0 0 0 (by omega)
  · simpa [safety_agent, query_llama] using
      queryGo_requests_succ endpoint 3 3 0 0 0 (by omega)
  · simpa [budget_agent, query_llama] using
      queryGo_requests_succ endpoint 3 3 0 0 0 (by omega)

/-- Claim C7 (witness): the amended statement at a concrete request with
empty destination and an always-failing endpoint. -/
theorem c7_no_validation_amended_witness :
    (⟨("2024-01-01").data, ("2024-01-08").data, 7, ("New York").data, [],
      2, ("Couple").data, ("Mid-range").data, ("Vegetarian food").data⟩ :
      TripRequest).destination = [] ∧
    1 ≤ (planner_agent
      ⟨("2024-01-01").data, ("2024-01-08").data, 7, ("New York").data, [],
        2, ("Couple").data, ("Mid-range").data, ("Vegetarian food").data⟩
      (fun _ => Attempt.netFail)).requests :=
  ⟨rfl,
   (c7_no_validation_amended
     ⟨("2024-01-01").data, ("2024-01-08").data, 7, ("New York").data, [],
       2, ("Couple").data, ("Mid-range").data, ("Vegetarian food").data⟩
     (fun _ => Attempt.netFail) rfl).1⟩

/-- What the OpenWeatherMap endpoint does for one request: a
`requests.exceptions.RequestException`, or a parsed JSON response with
its `cod` code, optional `message`, and the optional fields the success
path reads (`main.temp` rendered as text, and the first weather entry's
description). -/
inductive WeatherOutcome
  | netFail (e : Str)
  | respF (cod : Int) (message : Option Str) (temp : Option Str) (desc : Option Str)

/-- Python falsiness of `os.getenv(...)`: `None` or the empty string. -/
def pyFalsyStrOpt : Option Str → Bool
  | none => true
  | some s => s.isEmpty

/-- The response handling of `WeatherTool._run` (travel_tools.py lines
29-41) once the request was issued: non-200 `cod` reports the API
message, missing fields hit the `KeyError` handler, and the success path
formats city, temperature and description. -/
def weatherHandle (city : Str) : WeatherOutcome → Str
  | WeatherOutcome.netFail e =>
    ("Error connecting to OpenWeatherMap API: ").data ++ e
  | WeatherOutcome.respF cod message temp desc =>
    if cod ≠ 200 then
      ("Error fetching weather for ").data ++ city ++ (": ").data
        ++ message.getD (("Unknown error from OpenWeatherMap API").data)
    else
      match temp, desc with
      | some t, some d => city ++ (": ").data ++ t ++ ("°C, ").data ++ d
      | _, _ =>
        ("Error: Unexpected response format from OpenWeatherMap API. Check city name or API key.").data

/-- `WeatherTool._run` (travel_tools.py lines 25-41): the environment
lookup of `OPENWEATHERMAP_API_KEY` is modelled as an `Option Str`; a
missing (or empty) key returns the descriptive error string before any
request. The first component counts HTTP requests issued. -/
def WeatherTool_run (env : Option Str) (city : Str)
    (endpoint : WeatherOutcome) : Nat × Str :=
  if pyFalsyStrOpt env then
    (0, ("Error: OpenWeatherMap API key not found in environment variables. Please set OPENWEATHERMAP_API_KEY in your .env file.").data)
  else
    (1, weatherHandle city endpoint)

/-- Claim C9: for every city and endpoint behaviour, with the
OPENWEATHERMAP_API_KEY environment variable absent, the weather tool
returns the descriptive error string (which names the missing key)
without issuing any network request; the function is total, so no
exception is raised. -/
theorem c9_missing_key_no_request (city : Str) (endpoint : WeatherOutcome) :
    WeatherTool_run none city endpoint
      = (0, ("Error: OpenWeatherMap API key not found in environment variables. Please set OPENWEATHERMAP_API_KEY in your .env file.").data) ∧
    strIn (("OPENWEATHERMAP_API_KEY").data)
      (("Error: OpenWeatherMap API key not found in environment variables. Please set OPENWEATHERMAP_API_KEY in your .env file.").data) = true :=
  ⟨rfl, by decide⟩
